import Mathlib

/-!
Verification of the Glitch Cube conversation agent
(`custom_components/glitchcube_conversation/conversation.py`).

The agent relays one voice turn to an HTTP backend, routes the decoded
response by its `response_type` field, drives side effects (fire-and-forget
TTS, a delayed re-arm alert sound) and returns a `ConversationResult`
(spoken text plus a continue flag) to the host platform.

We shallowly embed the Python code.  Python/JSON values are modelled by
`JVal`; dictionary access, truthiness, `or`-chains, `str()`, slicing and
`str.strip()` follow Python semantics, with `AttributeError` / `TypeError`
raised where CPython would raise them.  Exceptions are modelled with
`Except PyErr`.  The two host service calls (TTS dispatch and the alert
media call) are recorded in an effect trace; their possible dispatch
failure is an oracle `Bool` argument, since the code swallows those
failures in `try/except` blocks.
-/

/-- A Python/JSON value as it appears in a decoded backend response.
`null` also stands for the Python `None` that `dict.get` returns when a
key is missing and no default is given. -/
inductive JVal where
  | str (s : String)
  | num (n : Int)
  | bool (b : Bool)
  | null
  | arr (xs : List JVal)
  | obj (fields : List (String × JVal))

/-- First binding of a key in a field list (Python dict lookup; the embedding
uses association lists with the first binding winning). -/
def lookupField : List (String × JVal) → String → Option JVal
  | [], _ => none
  | (k, v) :: fs, key => if k = key then some v else lookupField fs key

/-- Python exceptions that the embedded code can raise. -/
inductive PyErr where
  /-- `ConversationError`, the custom exception of `conversation.py`. -/
  | conversationError
  /-- `AttributeError`, e.g. `.get` called on a non-dict. -/
  | attributeError
  /-- `TypeError`, e.g. slicing a dict or sleeping on a string. -/
  | typeError
deriving DecidableEq, Repr

/-- `x.get(key, default)`: returns the binding or the default on a dict,
raises `AttributeError` on any other receiver. -/
def pyGetD (v : JVal) (key : String) (default : JVal) : Except PyErr JVal :=
  match v with
  | .obj fs => .ok ((lookupField fs key).getD default)
  | _ => .error .attributeError

/-- Python truthiness of a value: empty string / zero / `False` / `None` /
empty list / empty dict are falsy, everything else truthy. -/
def truthy : JVal → Bool
  | .str s => s ≠ ""
  | .num n => n ≠ 0
  | .bool b => b
  | .null => false
  | .arr xs => !xs.isEmpty
  | .obj fs => !fs.isEmpty

/-- Python `==` between a value and a string literal: string contents are
compared, a non-string value is simply unequal (no exception). -/
def JVal.isStr : JVal → String → Bool
  | .str t, s => t = s
  | _, _ => false

/-- The single-quote character, U+0027. -/
def singleQuote : Char := Char.ofNat 39

/-- The single-quote character as a one-character string, for building the
literal message strings of the source that contain contractions. -/
def apostrophe : String := String.singleton (Char.ofNat 39)

/-- The double-quote character, U+0022. -/
def doubleQuote : Char := Char.ofNat 34

/-- Escape a string for Python `repr` using quote character `q`. -/
def pyEscape (q : Char) (s : String) : String :=
  s.data.foldl (fun acc c =>
    acc ++ (if c = '\\' then "\\\\"
            else if c = q then "\\" ++ String.singleton q
            else if c = '\n' then "\\n"
            else if c = '\r' then "\\r"
            else if c = '\t' then "\\t"
            else String.singleton c)) ""

/-- Python `repr` of a string: single-quoted unless the string contains a
single quote and no double quote. -/
def pyReprStr (s : String) : String :=
  let q := if s.data.contains singleQuote && !s.data.contains doubleQuote
           then doubleQuote else singleQuote
  String.singleton q ++ pyEscape q s ++ String.singleton q

mutual

/-- Python `str()` of a value (`True` / `None` spelling; containers use
`repr` on their elements, as CPython does). -/
def pyStr : JVal → String
  | .str s => s
  | .num n => toString n
  | .bool b => if b then "True" else "False"
  | .null => "None"
  | .arr xs => "[" ++ String.intercalate ", " (pyReprList xs) ++ "]"
  | .obj fs => "\x7b" ++ String.intercalate ", " (pyReprFields fs) ++ "\x7d"

/-- Python `repr` of a value. -/
def pyRepr : JVal → String
  | .str s => pyReprStr s
  | .num n => toString n
  | .bool b => if b then "True" else "False"
  | .null => "None"
  | .arr xs => "[" ++ String.intercalate ", " (pyReprList xs) ++ "]"
  | .obj fs => "\x7b" ++ String.intercalate ", " (pyReprFields fs) ++ "\x7d"

/-- `repr` of each element of a list. -/
def pyReprList : List JVal → List String
  | [] => []
  | v :: vs => pyRepr v :: pyReprList vs

/-- `repr` of each `key: value` pair of a dict. -/
def pyReprFields : List (String × JVal) → List String
  | [] => []
  | (k, v) :: fs => (pyReprStr k ++ ": " ++ pyRepr v) :: pyReprFields fs

end

/-- Python whitespace for `str.strip()`: space, tab, newline, carriage
return, vertical tab and form feed (the ASCII fragment of what CPython
strips). -/
def pyIsSpace (c : Char) : Bool :=
  c = ' ' || c = '\t' || c = '\n' || c = '\r' ||
  c = Char.ofNat 11 || c = Char.ofNat 12

/-- `s.strip()` on a string: drop leading and trailing whitespace. -/
def pyStripStr (s : String) : String :=
  String.mk (((s.data.dropWhile pyIsSpace).reverse.dropWhile pyIsSpace).reverse)

/-- `s[:n]` on a string: the first `n` code points. -/
def pyTake (s : String) (n : Nat) : String :=
  String.mk (s.data.take n)

/-- `x.strip()`: trims whitespace on a string, raises `AttributeError`
on any other receiver. -/
def pyStrip : JVal → Except PyErr String
  | .str s => .ok (pyStripStr s)
  | _ => .error .attributeError

/-- Whether `x[:n]` is legal: slicing works on strings and lists and raises
`TypeError` on dicts, numbers, booleans and `None`. -/
def pySliceable : JVal → Bool
  | .str _ => true
  | .arr _ => true
  | _ => false

/-- The delay argument accepted by `asyncio.sleep`: numbers (a Python `bool`
is an `int`, so `True`/`False` count as 1/0); anything else raises
`TypeError`. -/
def pySleepArg : JVal → Option Int
  | .num n => some n
  | .bool b => some (if b then 1 else 0)
  | _ => none

/-! ### Constants (`const.py`) -/

def DEFAULT_PORT : Nat := 4567

def RESPONSE_KEY : String := "response"

/-! ### Endpoint resolution (`__init__` and `_get_current_api_url`) -/

/-- The `config_entry.data` fields the agent reads: `host` (default `""`)
and `port` (default `DEFAULT_PORT`). -/
structure ConfigData where
  host : Option String
  port : Option Nat
deriving DecidableEq, Repr

/-- `config_entry.data.get("host", "")`. -/
def configHost (c : ConfigData) : String := c.host.getD ""

/-- `config_entry.data.get("port", DEFAULT_PORT)`. -/
def configPort (c : ConfigData) : Nat := c.port.getD DEFAULT_PORT

/-- `f"http://{host}:{port}/api/v1/conversation"`. -/
def mkApiUrl (host : String) (port : Nat) : String :=
  "http://" ++ host ++ ":" ++ toString port ++ "/api/v1/conversation"

/-- `self._api_url` as set in `__init__`: `None` when the configured host is
falsy (empty or absent), otherwise the static URL. -/
def init_api_url (c : ConfigData) : Option String :=
  if configHost c = "" then none
  else some (mkApiUrl (configHost c) (configPort c))

/-- `_get_current_api_url`.  `dynamicHost` is the state of
`input_text.glitchcube_host` (`none` when the entity does not exist).
A dynamic host that is truthy and not one of the sentinel values
`"unknown"`, `"unavailable"`, `""` wins, stripped of whitespace; otherwise
the static URL from `__init__` if set; otherwise the hardcoded production
fallback `192.168.0.99`. -/
def get_current_api_url (c : ConfigData) (dynamicHost : Option String) : String :=
  match dynamicHost with
  | some s =>
    if s ≠ "" ∧ s ∉ (["unknown", "unavailable", ""] : List String) then
      mkApiUrl (pyStripStr s) (configPort c)
    else
      match init_api_url c with
      | some u => u
      | none => mkApiUrl "192.168.0.99" (configPort c)
  | none =>
    match init_api_url c with
    | some u => u
    | none => mkApiUrl "192.168.0.99" (configPort c)

/-! ### Speech extraction (`_extract_response_text`) -/

/-- The `response_text` assignment of `_extract_response_text` (lines
245-259): on a dict, the Python `or`-chain tries, in order,
`raw["speech"]["plain"]["speech"]`, `raw["response"]`,
`str(raw["data"]["custom_data"]["claude_response"])[:100]`, then the
literal fallback string; each `.get` on a non-dict intermediate raises.
On a non-dict, `str(raw)` when truthy, else the not-understood string. -/
def response_text_chain (raw_response : JVal) : Except PyErr JVal :=
  match raw_response with
  | .obj _ =>
        match pyGetD raw_response "speech" (.obj []) with
        | .error e => .error e
        | .ok speech =>
          match pyGetD speech "plain" (.obj []) with
          | .error e => .error e
          | .ok plain =>
            match pyGetD plain "speech" .null with
            | .error e => .error e
            | .ok nested =>
              if truthy nested then .ok nested
              else
                match pyGetD raw_response "response" .null with
                | .error e => .error e
                | .ok simple =>
                  if truthy simple then .ok simple
                  else
                    match pyGetD raw_response "data" (.obj []) with
                    | .error e => .error e
                    | .ok dat =>
                      match pyGetD dat "custom_data" (.obj []) with
                      | .error e => .error e
                      | .ok custom =>
                        match pyGetD custom "claude_response" (.str "") with
                        | .error e => .error e
                        | .ok claude =>
                          let truncated := pyTake (pyStr claude) 100
                          if truncated ≠ "" then .ok (.str truncated)
                          else .ok (.str "I had some trouble with that response.")
  | _ =>
    if truthy raw_response then .ok (.str (pyStr raw_response))
    else .ok (.str ("I didn" ++ apostrophe ++ "t understand that."))

/-- `_extract_response_text(conversation_data)` (lines 236-267): read
`conversation_data["response"]` (default `""`), run the chain, then
`.strip()` the chain value (raising on a non-string chain value) and
replace an empty result by the safety string. -/
def extract_response_text (conversation_data : JVal) : Except PyErr String :=
  match pyGetD conversation_data RESPONSE_KEY (.str "") with
  | .error e => .error e
  | .ok raw_response =>
    match response_text_chain raw_response with
    | .error e => .error e
    | .ok response_text =>
      match pyStrip response_text with
      | .error e => .error e
      | .ok cleaned_text =>
        if cleaned_text = "" then
          .ok ("Sorry, I" ++ apostrophe ++ "m having trouble speaking right now.")
        else .ok cleaned_text

/-! ### Turn data (`ConversationInput`, `ConversationResult`) -/

/-- The fields of the host `ConversationInput` that the agent reads. -/
structure ConversationInput where
  text : String
  conversation_id : String
  device_id : Option String
  language : String

/-- The `ConversationResult` handed back to the host: the id, the value
passed to `intent_response.async_set_speech` (the code can pass any value
through, so this is a `JVal`), and the value passed as
`continue_conversation` (likewise taken verbatim from the payload on the
normal path). -/
structure ConversationResult where
  conversation_id : String
  speech : JVal
  continue_conversation : JVal

/-- One dispatched host service call or suspension.  The `ok` flag of a
service call records whether the dispatch succeeded; the code wraps each
dispatch in `try/except`, so a failed dispatch is still an event in the
trace and never escapes. -/
inductive Effect where
  /-- `tts.cloud_say` with `blocking=False` (the immediate-speech path). -/
  | ttsSpeak (message : JVal) (blocking : Bool) (ok : Bool)
  /-- `asyncio.sleep(seconds)`. -/
  | sleep (seconds : Int)
  /-- `media_player.play_media` of the listening-resume chime
  (`_play_listening_resume_sound`). -/
  | playAlert (ok : Bool)

/-! ### Response routing -/

/-- The three handling variants of the response router. -/
inductive ResponseVariant where
  | normal
  | immediateSpeechWithBackgroundTools
  | error
deriving DecidableEq, Repr

/-- The `if / elif / else` on `response_type` in `async_process`
(lines 199-209) as a single classification function:
`"immediate_speech_with_background_tools"` and `"error"` are recognised,
every other value (including non-strings) falls to `normal`. -/
def classify_response_type (response_type : JVal) : ResponseVariant :=
  if response_type.isStr "immediate_speech_with_background_tools" then
    .immediateSpeechWithBackgroundTools
  else if response_type.isStr "error" then .error
  else .normal

/-- `_create_error_response(user_input, error_message)`. -/
def create_error_response (user_input : ConversationInput)
    (error_message : String) : ConversationResult :=
  { conversation_id := user_input.conversation_id
    speech := .str error_message
    continue_conversation := .bool false }

/-- `_play_listening_resume_sound`: dispatch the chime; a dispatch failure
is caught inside the method, so it only shows in the trace. -/
def play_listening_resume_sound (alert_ok : Bool) : List Effect :=
  [.playAlert alert_ok]

/-- `_handle_immediate_speech_with_background_tools(conversation_data,
user_input)` (lines 269-312).  `tts_ok` / `alert_ok` model whether the two
service dispatches succeed; both failures are swallowed.  Raises when
`conversation_data` is not a dict, when the log line slices a
non-sliceable `speech_text`, or when `asyncio.sleep` gets a non-numeric
delay; otherwise returns speech `" "` and `continue_conversation = True`
after sleeping and playing the alert. -/
def handle_immediate_speech_with_background_tools (conversation_data : JVal)
    (user_input : ConversationInput) (tts_ok alert_ok : Bool) :
    Except PyErr ConversationResult × List Effect :=
  match pyGetD conversation_data "speech_text" (.str "On it!") with
  | .error e => (.error e, [])
  | .ok speech_text =>
    -- line 278 logs `speech_text[:50]`; slicing a dict/number raises
    if !pySliceable speech_text then (.error .typeError, [])
    else
      let ttsEvent : Effect := .ttsSpeak speech_text false tts_ok
      match pyGetD conversation_data "continue_delay" (.num 3) with
      | .error e => (.error e, [ttsEvent])
      | .ok delayVal =>
        match pySleepArg delayVal with
        | none => (.error .typeError, [ttsEvent])
        | some delay_seconds =>
          (.ok { conversation_id := user_input.conversation_id
                 speech := .str " "
                 continue_conversation := .bool true },
           ttsEvent :: .sleep delay_seconds :: play_listening_resume_sound alert_ok)

/-- `_handle_error_response(conversation_data, user_input)` (lines
314-328): speech is `speech_text` (default `"I encountered an error."`)
taken verbatim, `continue_conversation = False`, no side effects. -/
def handle_error_response (conversation_data : JVal)
    (user_input : ConversationInput) :
    Except PyErr ConversationResult × List Effect :=
  match pyGetD conversation_data "speech_text" (.str "I encountered an error.") with
  | .error e => (.error e, [])
  | .ok error_text =>
    match pyGetD conversation_data "error_details" (.str "") with
    | .error e => (.error e, [])
    | .ok _ =>
      (.ok { conversation_id := user_input.conversation_id
             speech := error_text
             continue_conversation := .bool false }, [])

/-- `_handle_normal_response(conversation_data, user_input)` (lines
330-355): extract the speech text, read `continue_conversation` verbatim
(default `False`), and when it is truthy sleep `continue_delay` (default 3)
and play the alert before returning. -/
def handle_normal_response (conversation_data : JVal)
    (user_input : ConversationInput) (alert_ok : Bool) :
    Except PyErr ConversationResult × List Effect :=
  match extract_response_text conversation_data with
  | .error e => (.error e, [])
  | .ok response_text =>
    match pyGetD conversation_data "continue_conversation" (.bool false) with
    | .error e => (.error e, [])
    | .ok continue_conversation =>
      if truthy continue_conversation then
        match pyGetD conversation_data "continue_delay" (.num 3) with
        | .error e => (.error e, [])
        | .ok delayVal =>
          match pySleepArg delayVal with
          | none => (.error .typeError, [])
          | some delay_seconds =>
            (.ok { conversation_id := user_input.conversation_id
                   speech := .str response_text
                   continue_conversation := continue_conversation },
             .sleep delay_seconds :: play_listening_resume_sound alert_ok)
      else
        (.ok { conversation_id := user_input.conversation_id
               speech := .str response_text
               continue_conversation := continue_conversation }, [])

/-! ### The turn boundary (`async_process`) -/

/-- Outcome of the single HTTP POST, as seen by the `try` block of
`async_process`: a timeout (`asyncio.TimeoutError`), a transport failure
(`aiohttp.ClientError`), some other exception raised while issuing the
request or decoding its body, or a delivered response with a status code
and a decoded JSON body. -/
inductive HttpOutcome where
  | timeout
  | clientError
  | otherException
  | response (status : Nat) (body : JVal)

/-- Status check, envelope check and routing inside the `try` block of
`async_process` (lines 183-209): a non-200 status raises
`ConversationError`; then `result_data.get("success", False)` must be
truthy or `ConversationError` is raised; then
`result_data.get("data", {})` is routed on
`conversation_data.get("response_type", "normal")` through
`classify_response_type`. -/
def process_backend_response (status : Nat) (result_data : JVal)
    (user_input : ConversationInput) (tts_ok alert_ok : Bool) :
    Except PyErr ConversationResult × List Effect :=
  if status ≠ 200 then (.error .conversationError, [])
  else
    match pyGetD result_data "success" (.bool false) with
    | .error e => (.error e, [])
    | .ok success =>
      if !truthy success then (.error .conversationError, [])
      else
        match pyGetD result_data "data" (.obj []) with
        | .error e => (.error e, [])
        | .ok conversation_data =>
          match pyGetD conversation_data "response_type" (.str "normal") with
          | .error e => (.error e, [])
          | .ok response_type =>
            match classify_response_type response_type with
            | .immediateSpeechWithBackgroundTools =>
              handle_immediate_speech_with_background_tools
                conversation_data user_input tts_ok alert_ok
            | .error => handle_error_response conversation_data user_input
            | .normal => handle_normal_response conversation_data user_input alert_ok

/-- The fixed apology of the `except asyncio.TimeoutError` arm. -/
def TIMEOUT_APOLOGY : String :=
  "I" ++ apostrophe ++ "m having trouble thinking right now. Please try again."

/-- The fixed apology of the `except aiohttp.ClientError` arm. -/
def CLIENT_ERROR_APOLOGY : String :=
  "I can" ++ apostrophe ++ "t connect to my brain right now. Please try again."

/-- The fixed apology of the `except ConversationError` arm. -/
def CONVERSATION_ERROR_APOLOGY : String :=
  "Something went wrong with my thinking. Please try again."

/-- The fixed apology of the catch-all `except Exception` arm. -/
def UNEXPECTED_ERROR_APOLOGY : String :=
  "I encountered an unexpected error. Please try again."

/-- `async_process(user_input)` (lines 132-225) given the outcome of the
HTTP call: route a delivered response, and map every exception escaping
the `try` block to its fixed apology with `continue_conversation=False`.
Returns the `ConversationResult` together with the trace of dispatched
side effects. -/
def async_process (outcome : HttpOutcome) (user_input : ConversationInput)
    (tts_ok alert_ok : Bool) : ConversationResult × List Effect :=
  match outcome with
  | .timeout => (create_error_response user_input TIMEOUT_APOLOGY, [])
  | .clientError => (create_error_response user_input CLIENT_ERROR_APOLOGY, [])
  | .otherException => (create_error_response user_input UNEXPECTED_ERROR_APOLOGY, [])
  | .response status body =>
    match process_backend_response status body user_input tts_ok alert_ok with
    | (.ok result, events) => (result, events)
    | (.error .conversationError, events) =>
      (create_error_response user_input CONVERSATION_ERROR_APOLOGY, events)
    | (.error _, events) =>
      (create_error_response user_input UNEXPECTED_ERROR_APOLOGY, events)

/-! ### Helper lemmas -/

deriving instance DecidableEq for Except

/-- `pyGetD` on a literal object reduces to the lookup. -/
theorem pyGetD_obj (fs : List (String × JVal)) (key : String) (d : JVal) :
    pyGetD (.obj fs) key d = .ok ((lookupField fs key).getD d) := rfl

/-- A value that is neither of the two recognised tag strings classifies
as `normal`. -/
theorem classify_other_normal (v : JVal)
    (he : v ≠ .str "error")
    (hi : v ≠ .str "immediate_speech_with_background_tools") :
    classify_response_type v = .normal := by
  unfold classify_response_type
  cases v <;> simp [JVal.isStr]
  case str t =>
    rw [if_neg, if_neg]
    · intro h; exact he (by rw [h])
    · intro h; exact hi (by rw [h])

/-- The canonical success envelope wrapping a payload `data`:
`{"success": true, "data": data}`. -/
def successBody (data : JVal) : JVal :=
  .obj [("success", .bool true), ("data", data)]

/-- C1.  For every successfully parsed payload the router selects exactly
one handling variant by `response_type`: `"error"` enters the error
handler, `"immediate_speech_with_background_tools"` enters the
immediate-speech handler, and every other value — absent or any other
value, recognised or not — enters the normal handler. -/
theorem response_router_selects_exactly_one_variant :
    (∀ (fs : List (String × JVal)) (u : ConversationInput) (t a : Bool),
      lookupField fs "response_type" = some (.str "error") →
      process_backend_response 200 (successBody (.obj fs)) u t a =
        handle_error_response (.obj fs) u) ∧
    (∀ (fs : List (String × JVal)) (u : ConversationInput) (t a : Bool),
      lookupField fs "response_type" =
          some (.str "immediate_speech_with_background_tools") →
      process_backend_response 200 (successBody (.obj fs)) u t a =
        handle_immediate_speech_with_background_tools (.obj fs) u t a) ∧
    (∀ (fs : List (String × JVal)) (u : ConversationInput) (t a : Bool)
        (v : JVal),
      lookupField fs "response_type" = some v →
      v ≠ .str "error" → v ≠ .str "immediate_speech_with_background_tools" →
      process_backend_response 200 (successBody (.obj fs)) u t a =
        handle_normal_response (.obj fs) u a) ∧
    (∀ (fs : List (String × JVal)) (u : ConversationInput) (t a : Bool),
      lookupField fs "response_type" = none →
      process_backend_response 200 (successBody (.obj fs)) u t a =
        handle_normal_response (.obj fs) u a) := by
  refine ⟨?_, ?_, ?_, ?_⟩
  · intro fs u t a h
    simp [process_backend_response, successBody, pyGetD, lookupField, truthy,
      h, classify_response_type, JVal.isStr]
  · intro fs u t a h
    simp [process_backend_response, successBody, pyGetD, lookupField, truthy,
      h, classify_response_type, JVal.isStr]
  · intro fs u t a v h he hi
    simp [process_backend_response, successBody, pyGetD, lookupField, truthy, h,
      classify_other_normal v he hi]
  · intro fs u t a h
    simp [process_backend_response, successBody, pyGetD, lookupField, truthy, h,
      classify_response_type, JVal.isStr]

/-- Witness for C1: the unrecognised tag `"mystery"` is routed to the
normal handler. -/
theorem response_router_variant_witness :
    process_backend_response 200
        (successBody (.obj [("response_type", .str "mystery")]))
        ⟨"hi", "c1", none, "en"⟩ true true =
      handle_normal_response (.obj [("response_type", .str "mystery")])
        ⟨"hi", "c1", none, "en"⟩ true :=
  response_router_selects_exactly_one_variant.2.2.1
    [("response_type", .str "mystery")] ⟨"hi", "c1", none, "en"⟩ true true
    (.str "mystery") rfl (by simp) (by simp)

/-- C2.  Whenever the immediate-speech handler returns a result (rather
than raising), that result has `continue_conversation = True` and the
single-space spoken text `" "` regardless of the payload content, and the
trace ends with the delayed re-arm sequence — the sleep for the payload
delay followed by the alert — after the fire-and-forget TTS dispatch. -/
theorem immediate_speech_result_shape (data : JVal) (u : ConversationInput)
    (t a : Bool) (r : ConversationResult) (evs : List Effect)
    (h : handle_immediate_speech_with_background_tools data u t a = (.ok r, evs)) :
    r.continue_conversation = .bool true ∧ r.speech = .str " " ∧
    ∃ (st dv : JVal) (d : Int),
      pyGetD data "speech_text" (.str "On it!") = .ok st ∧
      pyGetD data "continue_delay" (.num 3) = .ok dv ∧
      pySleepArg dv = some d ∧
      evs = [.ttsSpeak st false t, .sleep d, .playAlert a] := by
  unfold handle_immediate_speech_with_background_tools at h
  rcases h1 : pyGetD data "speech_text" (.str "On it!") with e | st
  · rw [h1] at h; simp at h
  rw [h1] at h
  by_cases hs : pySliceable st
  · simp only [hs, Bool.not_true, Bool.false_eq_true, if_false] at h
    rcases h2 : pyGetD data "continue_delay" (.num 3) with e | dv
    · rw [h2] at h; simp at h
    rw [h2] at h
    dsimp only at h
    rcases h3 : pySleepArg dv with _ | d
    · rw [h3] at h; simp at h
    rw [h3] at h
    simp only [play_listening_resume_sound, Prod.mk.injEq, Except.ok.injEq] at h
    obtain ⟨hr, hevs⟩ := h
    subst hr hevs
    exact ⟨rfl, rfl, st, dv, d, rfl, rfl, h3, rfl⟩
  · simp only [hs, Bool.not_false, if_true] at h
    simp at h

/-- Witness for C2: a payload whose own continue flag is `False` and whose
delay is 5 still yields `continue_conversation = True`, spoken text `" "`
and the trace speak-sleep-alert. -/
theorem immediate_speech_result_witness :
    (⟨"c2", .str " ", .bool true⟩ : ConversationResult).continue_conversation
        = .bool true ∧
    (⟨"c2", .str " ", .bool true⟩ : ConversationResult).speech = .str " " ∧
    ∃ (st dv : JVal) (d : Int),
      pyGetD (.obj [("speech_text", .str "Working on it"),
          ("continue_delay", .num 5), ("continue_conversation", .bool false)])
          "speech_text" (.str "On it!") = .ok st ∧
      pyGetD (.obj [("speech_text", .str "Working on it"),
          ("continue_delay", .num 5), ("continue_conversation", .bool false)])
          "continue_delay" (.num 3) = .ok dv ∧
      pySleepArg dv = some d ∧
      [Effect.ttsSpeak (.str "Working on it") false true, .sleep 5,
          .playAlert true] =
        [.ttsSpeak st false true, .sleep d, .playAlert true] :=
  immediate_speech_result_shape
    (.obj [("speech_text", .str "Working on it"), ("continue_delay", .num 5),
      ("continue_conversation", .bool false)])
    ⟨"turn", "c2", none, "en"⟩ true true ⟨"c2", .str " ", .bool true⟩
    [.ttsSpeak (.str "Working on it") false true, .sleep 5, .playAlert true]
    rfl

/-- C3.  Whenever the error handler returns a result, the spoken value is
the payload `speech_text` (defaulting to `"I encountered an error."` when
the key is absent), `continue_conversation` is `False` unconditionally,
and no side effect — in particular no re-arm sleep or alert — is
dispatched. -/
theorem error_variant_result_shape (data : JVal) (u : ConversationInput)
    (r : ConversationResult) (evs : List Effect)
    (h : handle_error_response data u = (.ok r, evs)) :
    pyGetD data "speech_text" (.str "I encountered an error.") = .ok r.speech ∧
    r.continue_conversation = .bool false ∧ evs = [] := by
  unfold handle_error_response at h
  rcases h1 : pyGetD data "speech_text" (.str "I encountered an error.")
    with e | error_text
  · rw [h1] at h; simp at h
  rw [h1] at h
  dsimp only at h
  rcases h2 : pyGetD data "error_details" (.str "") with e | details
  · rw [h2] at h; simp at h
  rw [h2] at h
  dsimp only at h
  simp only [Prod.mk.injEq, Except.ok.injEq] at h
  obtain ⟨hr, hevs⟩ := h
  subst hr hevs
  exact ⟨rfl, rfl, rfl⟩

/-- Witness for C3: a payload without `speech_text` yields the default
error message, `continue_conversation = False` and an empty trace. -/
theorem error_variant_result_witness :
    pyGetD (.obj [("error_details", .str "boom")]) "speech_text"
        (.str "I encountered an error.") =
      .ok (⟨"c3", .str "I encountered an error.", .bool false⟩ :
        ConversationResult).speech ∧
    (⟨"c3", .str "I encountered an error.", .bool false⟩ :
        ConversationResult).continue_conversation = .bool false ∧
    ([] : List Effect) = [] :=
  error_variant_result_shape (.obj [("error_details", .str "boom")])
    ⟨"turn", "c3", none, "en"⟩
    ⟨"c3", .str "I encountered an error.", .bool false⟩ [] rfl

/-- C4.  The nested-speech extraction satisfies the four spec test vectors
(the input being the raw `response` value inside the payload):
`{"speech":{"plain":{"speech":"hi"}}}` gives `"hi"`, `{"response":"hello"}`
gives `"hello"`, `{}` gives the fallback string, and the plain string
`"plain text"` gives itself; and the shapes are tried in the fixed
priority order — the nested shape beats a `response` field, which beats
the `claude_response` fallback. -/
theorem nested_speech_extraction_vectors :
    extract_response_text (.obj [("response",
        .obj [("speech", .obj [("plain", .obj [("speech", .str "hi")])])])])
      = .ok "hi" ∧
    extract_response_text (.obj [("response",
        .obj [("response", .str "hello")])]) = .ok "hello" ∧
    extract_response_text (.obj [("response", .obj [])])
      = .ok "I had some trouble with that response." ∧
    extract_response_text (.obj [("response", .str "plain text")])
      = .ok "plain text" ∧
    extract_response_text (.obj [("response",
        .obj [("speech", .obj [("plain", .obj [("speech", .str "hi")])]),
              ("response", .str "hello")])]) = .ok "hi" ∧
    extract_response_text (.obj [("response",
        .obj [("response", .str "hello"),
              ("data", .obj [("custom_data",
                .obj [("claude_response", .str "from claude")])])])])
      = .ok "hello" ∧
    extract_response_text (.obj [("response",
        .obj [("data", .obj [("custom_data",
          .obj [("claude_response", .str "from claude")])])])])
      = .ok "from claude" := by
  refine ⟨?_, ?_, ?_, ?_, ?_, ?_, ?_⟩ <;> decide

/-- C5.  Endpoint resolution is total (it always yields a URL of the fixed
shape) and prioritised: a dynamic host that is non-empty and not a
sentinel beats the configured static host; a non-empty configured host
beats the hardcoded production fallback; and in every case the port is
the configured one with default `DEFAULT_PORT`. -/
theorem endpoint_resolution_priority :
    (∀ (c : ConfigData) (s : String), s ≠ "" →
      s ∉ (["unknown", "unavailable"] : List String) →
      get_current_api_url c (some s) = mkApiUrl (pyStripStr s) (configPort c)) ∧
    (∀ (c : ConfigData) (dyn : Option String),
      (∀ s, dyn = some s → s = "" ∨ s ∈ (["unknown", "unavailable"] : List String)) →
      configHost c ≠ "" →
      get_current_api_url c dyn = mkApiUrl (configHost c) (configPort c)) ∧
    (∀ (c : ConfigData) (dyn : Option String),
      (∀ s, dyn = some s → s = "" ∨ s ∈ (["unknown", "unavailable"] : List String)) →
      configHost c = "" →
      get_current_api_url c dyn = mkApiUrl "192.168.0.99" (configPort c)) ∧
    (∀ (c : ConfigData) (dyn : Option String), ∃ h : String,
      get_current_api_url c dyn = mkApiUrl h (configPort c)) ∧
    (∀ c : ConfigData, configPort c = c.port.getD DEFAULT_PORT) := by
  refine ⟨?_, ?_, ?_, ?_, fun _ => rfl⟩
  · intro c s hne hsent
    simp only [get_current_api_url]
    rw [if_pos]
    refine ⟨hne, ?_⟩
    simp only [List.mem_cons, List.not_mem_nil, or_false] at hsent ⊢
    push_neg at hsent ⊢
    exact ⟨hsent.1, hsent.2, hne⟩
  · intro c dyn hdyn hc
    have hstatic : init_api_url c = some (mkApiUrl (configHost c) (configPort c)) := by
      unfold init_api_url; rw [if_neg hc]
    cases dyn with
    | none => simp only [get_current_api_url, hstatic]
    | some s =>
      simp only [get_current_api_url]
      rw [if_neg, hstatic]
      rcases hdyn s rfl with h | h
      · intro hcond; exact hcond.1 h
      · intro hcond
        exact hcond.2 (by simp only [List.mem_cons] at h ⊢; tauto)
  · intro c dyn hdyn hc
    have hstatic : init_api_url c = none := by
      unfold init_api_url; rw [if_pos hc]
    cases dyn with
    | none => simp only [get_current_api_url, hstatic]
    | some s =>
      simp only [get_current_api_url]
      rw [if_neg, hstatic]
      rcases hdyn s rfl with h | h
      · intro hcond; exact hcond.1 h
      · intro hcond
        exact hcond.2 (by simp only [List.mem_cons] at h ⊢; tauto)
  · intro c dyn
    cases dyn with
    | none =>
      simp only [get_current_api_url]
      cases hstatic : init_api_url c with
      | none => exact ⟨"192.168.0.99", rfl⟩
      | some u =>
        unfold init_api_url at hstatic
        by_cases hc : configHost c = ""
        · rw [if_pos hc] at hstatic; cases hstatic
        · rw [if_neg hc] at hstatic
          exact ⟨configHost c, by rw [← Option.some_inj.mp hstatic]⟩
    | some s =>
      simp only [get_current_api_url]
      by_cases hcond : s ≠ "" ∧ s ∉ (["unknown", "unavailable", ""] : List String)
      · rw [if_pos hcond]; exact ⟨pyStripStr s, rfl⟩
      · rw [if_neg hcond]
        cases hstatic : init_api_url c with
        | none => exact ⟨"192.168.0.99", rfl⟩
        | some u =>
          unfold init_api_url at hstatic
          by_cases hc : configHost c = ""
          · rw [if_pos hc] at hstatic; cases hstatic
          · rw [if_neg hc] at hstatic
            exact ⟨configHost c, by rw [← Option.some_inj.mp hstatic]⟩

/-- Witness for C5: dynamic host `" 1.2.3.4 "` wins over the configured
host `10.0.0.5` and is stripped, with the configured port 8080. -/
theorem endpoint_resolution_witness :
    get_current_api_url ⟨some "10.0.0.5", some 8080⟩ (some " 1.2.3.4 ") =
      mkApiUrl (pyStripStr " 1.2.3.4 ") (configPort ⟨some "10.0.0.5", some 8080⟩) :=
  endpoint_resolution_priority.1 ⟨some "10.0.0.5", some 8080⟩ " 1.2.3.4 "
    (by decide) (by decide)

/-- C6.  Every failure of the turn — timeout, transport error, any other
exception while calling the backend, and every exception raised while
checking or routing a delivered response (bad status, backend rejection,
malformed payload access) — is caught at the turn boundary and mapped to
one of the four fixed apology strings, and every such error result
carries `continue_conversation = False`. -/
theorem turn_boundary_error_mapping :
    (∀ (u : ConversationInput) (t a : Bool),
      async_process .timeout u t a =
        (create_error_response u TIMEOUT_APOLOGY, [])) ∧
    (∀ (u : ConversationInput) (t a : Bool),
      async_process .clientError u t a =
        (create_error_response u CLIENT_ERROR_APOLOGY, [])) ∧
    (∀ (u : ConversationInput) (t a : Bool),
      async_process .otherException u t a =
        (create_error_response u UNEXPECTED_ERROR_APOLOGY, [])) ∧
    (∀ (st : Nat) (body : JVal) (u : ConversationInput) (t a : Bool)
        (e : PyErr) (evs : List Effect),
      process_backend_response st body u t a = (.error e, evs) →
      ∃ m, async_process (.response st body) u t a =
          (create_error_response u m, evs) ∧
        m ∈ [TIMEOUT_APOLOGY, CLIENT_ERROR_APOLOGY, CONVERSATION_ERROR_APOLOGY,
          UNEXPECTED_ERROR_APOLOGY]) ∧
    (∀ (u : ConversationInput) (m : String),
      (create_error_response u m).continue_conversation = .bool false) := by
  refine ⟨fun u t a => rfl, fun u t a => rfl, fun u t a => rfl, ?_,
    fun u m => rfl⟩
  intro st body u t a e evs h
  cases e with
  | conversationError =>
    exact ⟨CONVERSATION_ERROR_APOLOGY, by simp [async_process, h], by simp⟩
  | attributeError =>
    exact ⟨UNEXPECTED_ERROR_APOLOGY, by simp [async_process, h], by simp⟩
  | typeError =>
    exact ⟨UNEXPECTED_ERROR_APOLOGY, by simp [async_process, h], by simp⟩

/-- Witness for C6: an HTTP 500 maps to an apology from the fixed list
with an empty effect trace. -/
theorem turn_boundary_error_mapping_witness :
    ∃ m, async_process (.response 500 .null) ⟨"hi", "c6", none, "en"⟩ true true =
        (create_error_response ⟨"hi", "c6", none, "en"⟩ m, []) ∧
      m ∈ [TIMEOUT_APOLOGY, CLIENT_ERROR_APOLOGY, CONVERSATION_ERROR_APOLOGY,
        UNEXPECTED_ERROR_APOLOGY] :=
  turn_boundary_error_mapping.2.2.2.1 500 .null ⟨"hi", "c6", none, "en"⟩
    true true .conversationError [] rfl

/-- Whenever `_extract_response_text` returns text, that text is
non-empty: an empty stripped chain value is replaced by the safety
string. -/
theorem extract_response_text_ok_ne_empty (data : JVal) (s : String)
    (h : extract_response_text data = .ok s) : s ≠ "" := by
  unfold extract_response_text at h
  rcases h0 : pyGetD data RESPONSE_KEY (.str "") with e | raw
  · rw [h0] at h; simp at h
  rw [h0] at h; dsimp only at h
  rcases h1 : response_text_chain raw with e | rt
  · rw [h1] at h; simp at h
  rw [h1] at h; dsimp only at h
  rcases h2 : pyStrip rt with e | ct
  · rw [h2] at h; simp at h
  rw [h2] at h; dsimp only at h
  by_cases hc : ct = ""
  · rw [if_pos hc] at h
    cases h
    decide
  · rw [if_neg hc] at h
    cases h
    exact hc

/-- Counterexample to C7 as stated: a completed turn on the error variant
with `speech_text` present but empty returns the empty string as spoken
text — no safety substitution happens on that path. -/
theorem spoken_text_invariant_counterexample :
    async_process
        (.response 200 (successBody (.obj [("response_type", .str "error"),
          ("speech_text", .str "")])))
        ⟨"hi", "c7", none, "en"⟩ true true =
      (⟨"c7", .str "", .bool false⟩, []) := rfl

/-- C7 amended.  The non-empty-spoken-text substitution lives only in the
extraction used by the Normal path: text extracted there is never empty,
so the Normal variant always speaks a non-empty string; the four fixed
client-error apologies are non-empty as well.  The
ImmediateSpeechWithBackgroundTools variant however deliberately returns
the whitespace-only single-space string, and the Error variant returns
the payload `speech_text` verbatim — possibly empty — so the invariant
does not hold on those two paths. -/
theorem spoken_text_nonempty_amended :
    (∀ (data : JVal) (s : String), extract_response_text data = .ok s → s ≠ "") ∧
    (∀ (data : JVal) (u : ConversationInput) (a : Bool)
        (r : ConversationResult) (evs : List Effect),
      handle_normal_response data u a = (.ok r, evs) →
      ∃ s, r.speech = .str s ∧ s ≠ "") ∧
    (∀ (data : JVal) (u : ConversationInput) (t a : Bool)
        (r : ConversationResult) (evs : List Effect),
      handle_immediate_speech_with_background_tools data u t a = (.ok r, evs) →
      r.speech = .str " ") ∧
    (∀ (data : JVal) (u : ConversationInput)
        (r : ConversationResult) (evs : List Effect),
      handle_error_response data u = (.ok r, evs) →
      pyGetD data "speech_text" (.str "I encountered an error.") = .ok r.speech) ∧
    (TIMEOUT_APOLOGY ≠ "" ∧ CLIENT_ERROR_APOLOGY ≠ "" ∧
      CONVERSATION_ERROR_APOLOGY ≠ "" ∧ UNEXPECTED_ERROR_APOLOGY ≠ "" ∧
      ∀ (u : ConversationInput) (m : String),
        (create_error_response u m).speech = .str m) := by
  refine ⟨extract_response_text_ok_ne_empty, ?_, ?_, ?_,
    by decide, by decide, by decide, by decide, fun u m => rfl⟩
  · intro data u a r evs h
    unfold handle_normal_response at h
    rcases h1 : extract_response_text data with e | response_text
    · rw [h1] at h; simp at h
    rw [h1] at h; dsimp only at h
    rcases h2 : pyGetD data "continue_conversation" (.bool false) with e | cc
    · rw [h2] at h; simp at h
    rw [h2] at h; dsimp only at h
    by_cases hcc : truthy cc
    · rw [if_pos hcc] at h
      rcases h3 : pyGetD data "continue_delay" (.num 3) with e | dv
      · rw [h3] at h; simp at h
      rw [h3] at h; dsimp only at h
      rcases h4 : pySleepArg dv with _ | d
      · rw [h4] at h; simp at h
      rw [h4] at h; dsimp only at h
      simp only [Prod.mk.injEq, Except.ok.injEq] at h
      obtain ⟨hr, -⟩ := h
      subst hr
      exact ⟨response_text, rfl, extract_response_text_ok_ne_empty data _ h1⟩
    · rw [if_neg hcc] at h
      simp only [Prod.mk.injEq, Except.ok.injEq] at h
      obtain ⟨hr, -⟩ := h
      subst hr
      exact ⟨response_text, rfl, extract_response_text_ok_ne_empty data _ h1⟩
  · intro data u t a r evs h
    unfold handle_immediate_speech_with_background_tools at h
    rcases h1 : pyGetD data "speech_text" (.str "On it!") with e | st
    · rw [h1] at h; simp at h
    rw [h1] at h
    by_cases hs : pySliceable st
    · simp only [hs, Bool.not_true, Bool.false_eq_true, if_false] at h
      rcases h2 : pyGetD data "continue_delay" (.num 3) with e | dv
      · rw [h2] at h; simp at h
      rw [h2] at h; dsimp only at h
      rcases h3 : pySleepArg dv with _ | d
      · rw [h3] at h; simp at h
      rw [h3] at h
      simp only [Prod.mk.injEq, Except.ok.injEq] at h
      obtain ⟨hr, -⟩ := h
      subst hr
      rfl
    · simp only [hs, Bool.not_false, if_true] at h
      simp at h
  · intro data u r evs h
    unfold handle_error_response at h
    rcases h1 : pyGetD data "speech_text" (.str "I encountered an error.")
      with e | error_text
    · rw [h1] at h; simp at h
    rw [h1] at h; dsimp only at h
    rcases h2 : pyGetD data "error_details" (.str "") with e | details
    · rw [h2] at h; simp at h
    rw [h2] at h; dsimp only at h
    simp only [Prod.mk.injEq, Except.ok.injEq] at h
    obtain ⟨hr, -⟩ := h
    subst hr
    rfl

/-- Witness for the amended C7: the Normal-path extraction of a concrete
payload yields the non-empty text `"hi"`. -/
theorem spoken_text_nonempty_witness : "hi" ≠ "" :=
  spoken_text_nonempty_amended.1 (.obj [("response", .str "hi")]) "hi" rfl

/-- Counterexample to C8 as stated: the 2xx status 201 with a perfectly
well-formed success envelope is treated as a status error (the
`ConversationError` raise), not routed to envelope parsing — the code
compares the status against the single value 200, not against the 2xx
class.  The same body at status 200 routes normally. -/
theorem status_check_counterexample :
    process_backend_response 201
        (successBody (.obj [("response_type", .str "normal"),
          ("response", .str "Hello there")]))
        ⟨"hi", "c8", none, "en"⟩ true true = (.error .conversationError, []) ∧
    process_backend_response 200
        (successBody (.obj [("response_type", .str "normal"),
          ("response", .str "Hello there")]))
        ⟨"hi", "c8", none, "en"⟩ true true =
      (.ok ⟨"c8", .str "Hello there", .bool false⟩, []) := ⟨rfl, rfl⟩

/-- C8 amended.  The client classifies a delivered response as a status
error exactly when its status code differs from 200: every non-200
status — including other 2xx codes — raises the status
`ConversationError` without touching the body, and only a 200 response
proceeds to envelope parsing (at 200 the body is inspected, as the
`AttributeError` from a non-dict body shows). -/
theorem status_check_amended :
    (∀ (st : Nat) (body : JVal) (u : ConversationInput) (t a : Bool),
      st ≠ 200 →
      process_backend_response st body u t a = (.error .conversationError, [])) ∧
    (∀ (u : ConversationInput) (t a : Bool),
      process_backend_response 200 (.num 7) u t a =
        (.error .attributeError, [])) := by
  constructor
  · intro st body u t a hst
    unfold process_backend_response
    rw [if_pos hst]
  · intro u t a; rfl

/-- Witness for the amended C8: status 201 is refused without the body
being read. -/
theorem status_check_amended_witness :
    process_backend_response 201 .null ⟨"hi", "c8w", none, "en"⟩ true true =
      (.error .conversationError, []) :=
  status_check_amended.1 201 .null ⟨"hi", "c8w", none, "en"⟩ true true
    (by decide)

/-- The result component of the immediate-speech handler does not depend
on whether the TTS or alert dispatches succeed. -/
theorem handle_immediate_fst_oracle (data : JVal) (u : ConversationInput)
    (t a t2 a2 : Bool) :
    (handle_immediate_speech_with_background_tools data u t a).1 =
    (handle_immediate_speech_with_background_tools data u t2 a2).1 := by
  unfold handle_immediate_speech_with_background_tools
  rcases pyGetD data "speech_text" (.str "On it!") with e | st
  · rfl
  dsimp only
  by_cases hs : (!pySliceable st) = true
  · rw [if_pos hs, if_pos hs]
  rw [if_neg hs, if_neg hs]
  rcases pyGetD data "continue_delay" (.num 3) with e | dv
  · rfl
  dsimp only
  rcases pySleepArg dv with _ | d <;> rfl

/-- The result component of the normal handler does not depend on whether
the alert dispatch succeeds. -/
theorem handle_normal_fst_oracle (data : JVal) (u : ConversationInput)
    (a a2 : Bool) :
    (handle_normal_response data u a).1 = (handle_normal_response data u a2).1 := by
  unfold handle_normal_response
  rcases extract_response_text data with e | response_text
  · rfl
  dsimp only
  rcases pyGetD data "continue_conversation" (.bool false) with e | cc
  · rfl
  dsimp only
  by_cases hcc : truthy cc = true
  · rw [if_pos hcc, if_pos hcc]
    rcases pyGetD data "continue_delay" (.num 3) with e | dv
    · rfl
    dsimp only
    rcases pySleepArg dv with _ | d <;> rfl
  · rw [if_neg hcc, if_neg hcc]

/-- The result component of status check, envelope check and routing does
not depend on whether the side-effect dispatches succeed. -/
theorem process_backend_fst_oracle (st : Nat) (body : JVal)
    (u : ConversationInput) (t a t2 a2 : Bool) :
    (process_backend_response st body u t a).1 =
    (process_backend_response st body u t2 a2).1 := by
  unfold process_backend_response
  by_cases hst : st ≠ 200
  · rw [if_pos hst, if_pos hst]
  rw [if_neg hst, if_neg hst]
  rcases pyGetD body "success" (.bool false) with e | succ
  · rfl
  dsimp only
  by_cases hsu : (!truthy succ) = true
  · rw [if_pos hsu, if_pos hsu]
  rw [if_neg hsu, if_neg hsu]
  rcases pyGetD body "data" (.obj []) with e | conversation_data
  · rfl
  dsimp only
  rcases pyGetD conversation_data "response_type" (.str "normal") with e | rt
  · rfl
  dsimp only
  cases classify_response_type rt
  · exact handle_normal_fst_oracle conversation_data u a a2
  · exact handle_immediate_fst_oracle conversation_data u t a t2 a2
  · rfl

/-- C9.  Failures of the side-effect dispatches (TTS speak and the alert
sound) never propagate out of the turn and never change the returned
result: for every HTTP outcome the `ConversationResult` of
`async_process` is identical whichever of the dispatches fail; only the
recorded trace differs. -/
theorem side_effect_failures_preserve_result (outcome : HttpOutcome)
    (u : ConversationInput) (t a t2 a2 : Bool) :
    (async_process outcome u t a).1 = (async_process outcome u t2 a2).1 := by
  cases outcome with
  | timeout => rfl
  | clientError => rfl
  | otherException => rfl
  | response st body =>
    have h := process_backend_fst_oracle st body u t a t2 a2
    unfold async_process
    dsimp only
    rcases h1 : process_backend_response st body u t a with ⟨r1, evs1⟩
    rcases h2 : process_backend_response st body u t2 a2 with ⟨r2, evs2⟩
    rw [h1, h2] at h
    dsimp only at h
    subst h
    cases r1 with
    | ok res => rfl
    | error e => cases e <;> rfl

/-- C10.  On any dict `response` in which neither the nested
`speech.plain.speech` shape nor the `response` field yields text — both
chain values are falsy, whether the keys are absent or present with falsy
values such as `""` or `None` — the `claude_response` value reached under
`data.custom_data` is stringified with `str()` and truncated to its first
100 characters before being used (the final `.strip()` of the extraction
then applies to that truncation).  The hypotheses name the chain values
exactly as the `or`-chain computes them: `pl` is the `plain` lookup under
the `speech` value, `nested` the text the first shape yields, the second
operand is the `response` lookup, and `cu`/`v` the `custom_data` and
`claude_response` lookups. -/
theorem claude_fallback_truncated (fs : List (String × JVal))
    (pl nested cu v : JVal)
    (hsp : pyGetD ((lookupField fs "speech").getD (.obj [])) "plain" (.obj [])
      = .ok pl)
    (hpl : pyGetD pl "speech" .null = .ok nested)
    (hnt : truthy nested = false)
    (hre : truthy ((lookupField fs "response").getD .null) = false)
    (hda : pyGetD ((lookupField fs "data").getD (.obj [])) "custom_data"
      (.obj []) = .ok cu)
    (hcu : pyGetD cu "claude_response" (.str "") = .ok v)
    (hne : pyTake (pyStr v) 100 ≠ "")
    (hns : pyStripStr (pyTake (pyStr v) 100) ≠ "") :
    extract_response_text (.obj [("response", .obj fs)]) =
      .ok (pyStripStr (pyTake (pyStr v) 100)) := by
  have hchain : response_text_chain (.obj fs) = .ok (.str (pyTake (pyStr v) 100)) := by
    unfold response_text_chain
    simp [pyGetD_obj, hsp, hpl, hnt, hre, hda, hcu, hne]
  unfold extract_response_text
  simp [pyGetD, lookupField, RESPONSE_KEY, hchain, pyStrip, hns]

/-- Witness for C10: in a payload whose `response` field is present but
empty (so the first two shapes yield no text), the numeric
`claude_response` 42 is stringified to `"42"` and used as the spoken
text. -/
theorem claude_fallback_truncated_witness :
    extract_response_text (.obj [("response", .obj [("response", .str ""),
        ("data", .obj [("custom_data", .obj [("claude_response", .num 42)])])])]) =
      .ok (pyStripStr (pyTake (pyStr (.num 42)) 100)) :=
  claude_fallback_truncated
    [("response", .str ""),
     ("data", .obj [("custom_data", .obj [("claude_response", .num 42)])])]
    (.obj []) .null (.obj [("claude_response", .num 42)]) (.num 42)
    rfl rfl rfl rfl rfl rfl (by decide) (by decide)
